import Mathlib

/-!
Verification of the URL-shortener's redirect-and-analytics core.

Shallow embedding of:
- `UrlService` (`getOriginalUrl`, `validateUrl`, `generateUniqueShortCode`,
  `updateUrl`, `deleteUrl`, `incrementClickCount`, `bulkCreateShortUrls`),
- `CacheService` (`get`/`set`/`del` with swallowed backend errors, key helpers,
  `invalidateAnalyticsCache`),
- `AnalyticsService` (`processClickEvent`, `getAnalyticsOverview` fallback,
  `getReferrerStats` fallback),
- `UrlController.redirectToOriginal` and `bulkCreateShortUrls` response.

Timestamps are naturals (milliseconds).  The relational store is a list of
rows; TypeORM `findOne` on a soft-deletable entity skips rows whose
`deletedAt` is set, which the embedding makes explicit.  External
collaborators (bcrypt, the WHATWG URL parser, nanoid's randomness, the
user-agent parser and the geo-IP source) are modelled as computable stand-ins
or as explicit inputs; all repository logic is translated from the source.
-/

namespace UrlShortener

/-- A row of the `urls` table (entity `Url` extends `BaseEntity`:
`id`, `createdAt`, `updatedAt`, `deletedAt`). -/
structure Url where
  id : String
  originalUrl : String
  shortCode : String
  customAlias : Option String
  title : Option String
  userId : Option String
  clickCount : Nat
  expiresAt : Option Nat
  isActive : Bool
  password : Option String
  maxClicks : Nat
  createdAt : Nat
  deletedAt : Option Nat
  deriving Repr, DecidableEq

/-- A row of the `clicks` table (entity `Click`). -/
structure Click where
  urlId : String
  ipAddress : String
  userAgent : Option String
  referer : Option String
  browser : Option String
  browserVersion : Option String
  os : Option String
  osVersion : Option String
  deviceType : Option String
  country : Option String
  city : Option String
  timezone : Option String
  createdAt : Nat
  deriving Repr, DecidableEq

/-- `ClickEventDto`: the raw payload enqueued by the redirect handler. -/
structure ClickEventDto where
  urlId : String
  ipAddress : String
  userAgent : String
  referer : String
  deriving Repr, DecidableEq

/-- Output of the external user-agent parser (`UserAgentParser.parse`). -/
structure UAData where
  browser : Option String
  browserVersion : Option String
  os : Option String
  osVersion : Option String
  deviceType : Option String
  deriving Repr, DecidableEq

/-- Output of the external geo-IP source (`GeoIpService.getLocation`). -/
structure GeoData where
  country : Option String
  city : Option String
  timezone : Option String
  deriving Repr, DecidableEq

/-- Model of the external `bcrypt.hash(p, 10)`: an injective digest. -/
def bcryptHash (p : String) : String := "$2b$10$" ++ p

/-- Model of the external `bcrypt.compare(p, h)`: true iff `h` is `p`'s digest. -/
def bcryptCompare (p h : String) : Bool := bcryptHash p == h

/-- First association for `k` in an association list (model of a key-value
cache store's read). -/
def lookupAssoc {α : Type} (l : List (String × α)) (k : String) : Option α :=
  (l.find? (fun kv => kv.1 == k)).map (·.2)

/-- Overwrite-or-insert for `k` in an association list (cache store write). -/
def insertAssoc {α : Type} (l : List (String × α)) (k : String) (v : α) :
    List (String × α) :=
  (k, v) :: l.filter (fun kv => kv.1 != k)

/-- Remove `k` from an association list (cache store delete). -/
def eraseAssoc {α : Type} (l : List (String × α)) (k : String) :
    List (String × α) :=
  l.filter (fun kv => kv.1 != k)

/-! ### CacheService: keys and degraded operations -/

/-- `CacheService.getKey`: prefix followed by the parts joined with `:`. -/
def getKey (pre : String) (parts : List String) : String :=
  pre ++ String.intercalate ":" parts

/-- `CacheService.urlLookupKey`. -/
def urlLookupKey (shortCode : String) : String :=
  getKey "url:" ["lookup", shortCode]

/-- `CacheService.analyticsOverviewKey`. -/
def analyticsOverviewKey (shortCode : String) : String :=
  getKey "analytics:" ["overview", shortCode]

/-- `CacheService.analyticsTimelineKey`. -/
def analyticsTimelineKey (shortCode interval : String) (days : Nat) : String :=
  getKey "analytics:" ["timeline", shortCode, interval, toString days]

/-- `CacheService.analyticsLocationsKey`. -/
def analyticsLocationsKey (shortCode : String) : String :=
  getKey "analytics:" ["locations", shortCode]

/-- `CacheService.analyticsDevicesKey`. -/
def analyticsDevicesKey (shortCode : String) : String :=
  getKey "analytics:" ["devices", shortCode]

/-- `CacheService.analyticsReferrersKey`. -/
def analyticsReferrersKey (shortCode : String) : String :=
  getKey "analytics:" ["referrers", shortCode]

/-- The lookup-cache backend (redis behind `cache-manager`): its entries plus
flags stating whether the backend currently fails (unreachable / timeout) on
reads or writes. -/
structure CacheBackend where
  entries : List (String × Url)
  getFails : Bool
  setFails : Bool
  deriving Repr, DecidableEq

/-- The raw backend read: throws when the backend is down. -/
def backendGet (b : CacheBackend) (k : String) : Except String (Option Url) :=
  if b.getFails then .error "cache backend unreachable" else .ok (lookupAssoc b.entries k)

/-- The raw backend write: throws when the backend is down. -/
def backendSet (b : CacheBackend) (k : String) (v : Url) :
    Except String CacheBackend :=
  if b.setFails then .error "cache backend unreachable"
  else .ok { b with entries := insertAssoc b.entries k v }

/-- `CacheService.get`: catches any backend error and returns null
(`value || null` also maps a missing value to null). -/
def cacheServiceGet (b : CacheBackend) (k : String) : Option Url :=
  match backendGet b k with
  | .ok v => v
  | .error _ => none

/-- `CacheService.set`: catches and logs any backend error (the write is lost
but nothing propagates). -/
def cacheServiceSet (b : CacheBackend) (k : String) (v : Url) : CacheBackend :=
  match backendSet b k v with
  | .ok b' => b'
  | .error _ => b

/-- `CacheService.del` on the url-lookup cache: a swallowed-error delete. -/
def cacheServiceDel (b : CacheBackend) (k : String) : CacheBackend :=
  { b with entries := eraseAssoc b.entries k }

/-! ### UrlService.getOriginalUrl: resolve + access checks -/

/-- Everything `UrlService.getOriginalUrl` can throw, plus the denial
reasons of the access policy.  `gone` is the `NotFoundException` thrown for a
soft-deleted link; `notFound` the one for an unknown short code. -/
inductive AccessError where
  | notFound
  | gone
  | deactivated
  | expired
  | quotaExceeded
  | passwordRequired
  | passwordMismatch
  deriving Repr, DecidableEq

/-- HTTP status NestJS attaches to each exception the redirect path throws
(`NotFoundException` is 404, `BadRequestException` 400). -/
def AccessError.status : AccessError → Nat
  | .notFound => 404
  | .gone => 404
  | _ => 400

/-- The check sequence of `UrlService.getOriginalUrl` after the link record is
resolved (source order: `deletedAt`, `!isActive`, expiry, `maxClicks`,
password).  JS truthiness: `url.maxClicks &&` is false at 0 (0 = unlimited),
and `!password` is true both for an absent and for an empty supplied
password. -/
def accessChecks (now : Nat) (url : Url) (password : Option String) :
    Except AccessError String :=
  if url.deletedAt.isSome then .error .gone
  else if url.isActive = false then .error .deactivated
  else if (match url.expiresAt with | some e => decide (now > e) | none => false) then
    .error .expired
  else if url.maxClicks != 0 && decide (url.clickCount ≥ url.maxClicks) then
    .error .quotaExceeded
  else
    match url.password with
    | none => .ok url.originalUrl
    | some h =>
      match password with
      | none => .error .passwordRequired
      | some p =>
        if p = "" then .error .passwordRequired
        else if bcryptCompare p h then .ok url.originalUrl
        else .error .passwordMismatch

/-- `Repository.findOne({ where: { shortCode } })`: TypeORM skips soft-deleted
rows for an entity with a `DeleteDateColumn`. -/
def findByShortCode (store : List Url) (code : String) : Option Url :=
  store.find? (fun u => u.shortCode == code && u.deletedAt == none)

/-- `UrlService.getOriginalUrl`: cache-aside resolve followed by the access
checks.  Returns the thrown error or the destination, together with the cache
backend as left by the call (populated on a miss, untouched otherwise). -/
def getOriginalUrl (store : List Url) (b : CacheBackend) (now : Nat)
    (code : String) (password : Option String) :
    Except AccessError String × CacheBackend :=
  match cacheServiceGet b (urlLookupKey code) with
  | some url => (accessChecks now url password, b)
  | none =>
    match findByShortCode store code with
    | none => (.error .notFound, b)
    | some url =>
      (accessChecks now url password, cacheServiceSet b (urlLookupKey code) url)

/-- The pure store path of the lookup: what resolves when no cache exists at
all.  Used to state the graceful-degradation law. -/
def getOriginalUrlNoCache (store : List Url) (now : Nat) (code : String)
    (password : Option String) : Except AccessError String :=
  match findByShortCode store code with
  | none => .error .notFound
  | some url => accessChecks now url password

/-- Spec-side access policy, written after the numbered contract of §4.4
("authorize(link, suppliedPassword?) -> destination | DeniedReason",
checks 1-7 in that order).  "No password supplied" covers the empty
password, since an empty query parameter supplies no password. -/
def authorizeSpecContract (now : Nat) (url : Url) (password : Option String) :
    Except AccessError String :=
  if url.deletedAt.isSome then .error .gone
  else if ¬ url.isActive then .error .deactivated
  else if (match url.expiresAt with | some e => decide (e < now) | none => false) then
    .error .expired
  else if 0 < url.maxClicks ∧ url.maxClicks ≤ url.clickCount then
    .error .quotaExceeded
  else if url.password.isSome ∧ (password = none ∨ password = some "") then
    .error .passwordRequired
  else
    match url.password, password with
    | some h, some p =>
      if bcryptCompare p h then .ok url.originalUrl else .error .passwordMismatch
    | _, _ => .ok url.originalUrl

/-! ### UrlService.validateUrl and the short-code generator -/

/-- What the embedding keeps of the WHATWG `new URL(...)` result. -/
structure ParsedUrl where
  protocol : String
  hostname : String
  deriving Repr, DecidableEq

/-- Splits a character list at the first `://`, keeping what precedes and
what follows it. -/
def findSchemeSep : List Char → Option (List Char × List Char)
  | [] => none
  | ':' :: '/' :: '/' :: rest => some ([], rest)
  | c :: rest => (findSchemeSep rest).map (fun p => (c :: p.1, p.2))

/-- Model of the platform URL constructor: `scheme://host/...` parses into a
protocol (with the trailing colon, as in JS) and a hostname; anything else
throws, which surfaces as `none`. -/
def urlParse (s : String) : Option ParsedUrl :=
  match findSchemeSep s.toList with
  | none => none
  | some (schemeChars, restChars) =>
    if schemeChars ≠ [] ∧ restChars ≠ [] then
      some ⟨String.mk schemeChars ++ ":", String.mk (restChars.takeWhile (· ≠ '/'))⟩
    else none

/-- The hosts `UrlService.validateUrl` blocks. -/
def blockedHosts : List String := ["localhost", "127.0.0.1", "0.0.0.0", "::1"]

/-- `UrlService.validateUrl`: parse failure, blocked host and non-HTTP(S)
scheme each raise a `BadRequestException` (in that source order). -/
def validateUrl (url : String) : Except String Unit :=
  match urlParse url with
  | none => .error "Invalid URL format"
  | some p =>
    if blockedHosts.contains p.hostname then
      .error "Cannot shorten localhost or private IPs"
    else if p.protocol ≠ "http:" ∧ p.protocol ≠ "https:" then
      .error "Only HTTP(S) URLs are allowed"
    else .ok ()

/-- The `customAlphabet` string given to nanoid in the `UrlService`
constructor. -/
def urlAlphabet : String :=
  "abcdefghijkmnopqrstuvwxyzABCDEFGHJKLMNPQRSTUVWXYZ23456789"

/-- Model of the nanoid generator built by `customAlphabet(urlAlphabet, n)`:
the randomness is an explicit stream of alphabet indices; the output picks
`n` characters from the alphabet.  (The default `'a'` of `getD` is never
reached: every index is below the alphabet's length, 57.) -/
def nanoidGen (n : Nat) (f : Nat → Fin 57) : String :=
  String.mk ((List.range n).map (fun j => urlAlphabet.toList.getD (f j) 'a'))

/-- The fields the `UrlService` constructor computes:  `shortCodeLength` is
read from `SHORT_CODE_LENGTH` with default 6, while the nanoid generator is
built with the literal size 6. -/
structure UrlServiceInit where
  shortCodeLength : Nat
  nanoidSize : Nat
  deriving Repr, DecidableEq

/-- The `UrlService` constructor, over the config lookup. -/
def mkUrlService (config : String → Option Nat) : UrlServiceInit :=
  { shortCodeLength := (config "SHORT_CODE_LENGTH").getD 6
    nanoidSize := 6 }

/-- Errors a bulk create can throw: the `BadRequestException`s of
`validateUrl`, or the plain `Error` of an exhausted short-code generator. -/
inductive BulkError where
  | badRequest (msg : String)
  | genRetriesExhausted
  deriving Repr, DecidableEq

/-- The retry loop of `UrlService.generateUniqueShortCode`: `gen i` is the
`i`-th output of the (single, shared) nanoid generator, `fuel` the attempts
left out of `maxRetries = 5`; each candidate is checked against the store and
exhausting the retries throws. -/
def genUniqueFrom (store : List Url) (gen : Nat → String) (i : Nat) :
    Nat → Except BulkError (String × Nat)
  | 0 => .error .genRetriesExhausted
  | fuel + 1 =>
    let c := gen i
    if (findByShortCode store c).isSome then
      genUniqueFrom store gen (i + 1) fuel
    else .ok (c, i + 1)

/-- `UrlService.generateUniqueShortCode` (`maxRetries = 5`). -/
def generateUniqueShortCode (store : List Url) (gen : Nat → String) (i : Nat) :
    Except BulkError (String × Nat) :=
  genUniqueFrom store gen i 5

/-! ### UrlService.bulkCreateShortUrls -/

/-- `CreateUrlDto` (validation decorators elided; `expiresAt` already a
timestamp). -/
structure CreateUrlDto where
  originalUrl : String
  customAlias : Option String
  password : Option String
  expiresAt : Option Nat
  maxClicks : Option Nat
  title : Option String
  deriving Repr, DecidableEq

/-- The row `manager.create(Url, {...})` builds inside the bulk loop (the
saved row's generated id is modelled by a running counter). -/
def mkBulkUrl (dto : CreateUrlDto) (userId : Option String)
    (shortCode : String) (expirationDate : Option Nat) (now : Nat)
    (uid : Nat) : Url :=
  { id := "uuid-" ++ toString uid
    originalUrl := dto.originalUrl
    shortCode := shortCode
    customAlias := dto.customAlias
    title := dto.title
    userId := userId
    clickCount := 0
    expiresAt := expirationDate
    isActive := true
    password := dto.password.map bcryptHash
    maxClicks := dto.maxClicks.getD 0
    createdAt := now
    deletedAt := none }

/-- The per-item loop of `UrlService.bulkCreateShortUrls`, run inside
`manager.transaction`.  Per item, in source order: `validateUrl` (throws out
of the transaction), duplicate custom alias against the transaction-visible
rows (`continue`), otherwise `generateUniqueShortCode` (which reads
`this.urlRepository`, i.e. the pre-transaction store, and can throw), past
expiry (`continue`), then `manager.save`.  `acc` is the transaction's list of
already-saved rows, `gi` the nanoid stream cursor, `uid` the id counter. -/
def bulkLoop (store : List Url) (gen : Nat → String) (now : Nat)
    (userId : Option String) :
    List CreateUrlDto → List Url → Nat → Nat → Except BulkError (List Url)
  | [], acc, _, _ => .ok acc
  | dto :: rest, acc, gi, uid =>
    match validateUrl dto.originalUrl with
    | .error m => .error (.badRequest m)
    | .ok _ =>
      let codeStep : Except BulkError (Option (String × Nat)) :=
        match dto.customAlias with
        | some a =>
          if (findByShortCode (store ++ acc) a).isSome then .ok none
          else .ok (some (a, gi))
        | none =>
          (generateUniqueShortCode store gen gi).map (fun p => some p)
      match codeStep with
      | .error e => .error e
      | .ok none => bulkLoop store gen now userId rest acc gi uid
      | .ok (some (code, gi')) =>
        match dto.expiresAt with
        | some e =>
          if e < now then bulkLoop store gen now userId rest acc gi' uid
          else
            bulkLoop store gen now userId rest
              (acc ++ [mkBulkUrl dto userId code (some e) now uid]) gi' (uid + 1)
        | none =>
          bulkLoop store gen now userId rest
            (acc ++ [mkBulkUrl dto userId code none now uid]) gi' (uid + 1)

/-- `UrlService.bulkCreateShortUrls`: on success the transaction commits and
the saved rows are appended to the store; the results list is returned. -/
def bulkCreateShortUrls (store : List Url) (gen : Nat → String) (now : Nat)
    (userId : Option String) (dtos : List CreateUrlDto) :
    Except BulkError (List Url × List Url) :=
  (bulkLoop store gen now userId dtos [] 0 0).map (fun rs => (store ++ rs, rs))

/-- The store after a bulk call: an exception inside `manager.transaction`
rolls every `manager.save` of the call back, so on error the store is the
original one. -/
def bulkPostStore (store : List Url) (gen : Nat → String) (now : Nat)
    (userId : Option String) (dtos : List CreateUrlDto) : List Url :=
  match bulkCreateShortUrls store gen now userId dtos with
  | .error _ => store
  | .ok (store', _) => store'

/-- The `created`/`skipped` counters of
`UrlController.bulkCreateShortUrls`'s response body. -/
structure BulkResponse where
  created : Nat
  skipped : Nat
  deriving Repr, DecidableEq

/-- `UrlController.bulkCreateShortUrls`: `created = urls.length`,
`skipped = bulkcreateDto.urls.length - urls.length`. -/
def bulkControllerResponse (store : List Url) (gen : Nat → String) (now : Nat)
    (userId : Option String) (dtos : List CreateUrlDto) :
    Except BulkError BulkResponse :=
  (bulkCreateShortUrls store gen now userId dtos).map
    (fun p => { created := p.2.length, skipped := dtos.length - p.2.length })

/-! ### Mutation paths and the click-ingestion pipeline -/

/-- The shared state the mutation paths touch: the two tables, the
url-lookup cache backend and the analytics cache (opaque string payloads). -/
structure AppState where
  urls : List Url
  clicks : List Click
  lookupCache : CacheBackend
  analyticsCache : List (String × String)
  deriving Repr, DecidableEq

/-- `Repository.increment({ id }, 'clickCount', 1)`: the atomic counter
bump. -/
def incrementUrls (urls : List Url) (urlId : String) : List Url :=
  urls.map (fun u => if u.id == urlId then { u with clickCount := u.clickCount + 1 } else u)

/-- `Repository.findOne({ where: { id } })` (soft-deleted rows skipped). -/
def findById (urls : List Url) (urlId : String) : Option Url :=
  urls.find? (fun u => u.id == urlId && u.deletedAt == none)

/-- `CacheService.invalidateAnalyticsCache`: deletes the overview, locations,
devices and referrers keys of the short code (and only those). -/
def invalidateAnalyticsCache (cache : List (String × String))
    (shortCode : String) : List (String × String) :=
  cache.filter (fun kv =>
    !(kv.1 == analyticsOverviewKey shortCode
      || kv.1 == analyticsLocationsKey shortCode
      || kv.1 == analyticsDevicesKey shortCode
      || kv.1 == analyticsReferrersKey shortCode))

/-- `AnalyticsService.processClickEvent`: parse the user agent and resolve
the geo location (both passed in as the collaborators' outputs), save the
enriched `Click` row, atomically increment the link's `clickCount`, then look
the link up by id and invalidate its analytics cache entries.  The url-lookup
cache is not touched by this path. -/
def processClickEvent (s : AppState) (ev : ClickEventDto) (ua : UAData)
    (geo : GeoData) (now : Nat) : AppState :=
  let click : Click :=
    { urlId := ev.urlId
      ipAddress := ev.ipAddress
      userAgent := if ev.userAgent = "" then none else some ev.userAgent
      referer := if ev.referer = "" then none else some ev.referer
      browser := ua.browser
      browserVersion := ua.browserVersion
      os := ua.os
      osVersion := ua.osVersion
      deviceType := ua.deviceType
      country := geo.country
      city := geo.city
      timezone := geo.timezone
      createdAt := now }
  let urls' := incrementUrls s.urls ev.urlId
  let analytics' :=
    match findById urls' ev.urlId with
    | some url => invalidateAnalyticsCache s.analyticsCache url.shortCode
    | none => s.analyticsCache
  { urls := urls'
    clicks := s.clicks ++ [click]
    lookupCache := s.lookupCache
    analyticsCache := analytics' }

/-- `UpdateUrlDto`: `expiresAt` distinguishes absent (`undefined`) from an
explicit `null`. -/
structure UpdateUrlDto where
  title : Option String
  isActive : Option Bool
  expiresAt : Option (Option Nat)
  maxClicks : Option Nat
  deriving Repr, DecidableEq

/-- `UrlService.updateUrl`: apply the partial update (rejecting a past new
expiry), save, then delete the url-lookup cache key. -/
def updateUrl (s : AppState) (id : String) (dto : UpdateUrlDto) (now : Nat) :
    Except AccessError AppState :=
  match findById s.urls id with
  | none => .error .notFound
  | some url =>
    let url := match dto.title with | some t => { url with title := some t } | none => url
    let url := match dto.isActive with | some a => { url with isActive := a } | none => url
    match dto.expiresAt with
    | some (some e) =>
      if e < now then .error .expired
      else
        let url := { url with expiresAt := some e }
        let url := match dto.maxClicks with | some m => { url with maxClicks := m } | none => url
        .ok { s with
          urls := s.urls.map (fun u => if u.id == id then url else u)
          lookupCache := cacheServiceDel s.lookupCache (urlLookupKey url.shortCode) }
    | other =>
      let url := match other with | some none => { url with expiresAt := none } | _ => url
      let url := match dto.maxClicks with | some m => { url with maxClicks := m } | none => url
      .ok { s with
        urls := s.urls.map (fun u => if u.id == id then url else u)
        lookupCache := cacheServiceDel s.lookupCache (urlLookupKey url.shortCode) }

/-- `UrlService.deleteUrl`: `softRemove` (stamp `deletedAt`), then delete the
url-lookup cache key. -/
def deleteUrl (s : AppState) (id : String) (now : Nat) :
    Except AccessError AppState :=
  match findById s.urls id with
  | none => .error .notFound
  | some url =>
    .ok { s with
      urls := s.urls.map (fun u => if u.id == id then { u with deletedAt := some now } else u)
      lookupCache := cacheServiceDel s.lookupCache (urlLookupKey url.shortCode) }

/-- `UrlService.incrementClickCount`: atomic increment, then find the row and
delete its url-lookup cache key (when the row exists). -/
def incrementClickCount (s : AppState) (urlId : String) : AppState :=
  let urls' := incrementUrls s.urls urlId
  match findById urls' urlId with
  | some url =>
    { s with urls := urls'
             lookupCache := cacheServiceDel s.lookupCache (urlLookupKey url.shortCode) }
  | none => { s with urls := urls' }

/-! ### UrlController.redirectToOriginal -/

/-- What the redirect handler reads off the incoming request. -/
structure ReqInfo where
  ip : String
  userAgent : Option String
  referer : Option String
  deriving Repr, DecidableEq

/-- The HTTP response the redirect handler produces: a 302 with a location,
or the structured error body (status, message elided, short code). -/
structure RedirectResponse where
  status : Nat
  location : Option String
  deriving Repr, DecidableEq

/-- `UrlController.redirectToOriginal`: `getUrlByShortCode` (404 on an
unknown code), then `getOriginalUrl` (throws on denial), then the click event
is built from the request (`|| ''` defaults) and enqueued, then the 302.  Any
thrown error is caught and turned into the JSON error body, with nothing
enqueued.  Returns the response, the events enqueued by this request, and the
cache backend left behind. -/
def redirectToOriginal (store : List Url) (b : CacheBackend) (now : Nat)
    (code : String) (password : Option String) (req : ReqInfo) :
    RedirectResponse × List ClickEventDto × CacheBackend :=
  match findByShortCode store code with
  | none => ({ status := 404, location := none }, [], b)
  | some url =>
    match getOriginalUrl store b now code password with
    | (.error e, b') => ({ status := e.status, location := none }, [], b')
    | (.ok dest, b') =>
      let ev : ClickEventDto :=
        { urlId := url.id
          ipAddress := req.ip
          userAgent := req.userAgent.getD ""
          referer := req.referer.getD "" }
      ({ status := 302, location := some dest }, [ev], b')

/-! ### AnalyticsService: referrer stats and the overview fallback -/

/-- Insertion step of the `ORDER BY clicks DESC` model: descending insertion
by the count component, stable for ties. -/
def insertByClicksDesc (p : String × Nat) :
    List (String × Nat) → List (String × Nat)
  | [] => [p]
  | q :: rest =>
    if p.2 ≤ q.2 then q :: insertByClicksDesc p rest else p :: q :: rest

/-- `ORDER BY clicks DESC` as insertion sort. -/
def sortByClicksDesc : List (String × Nat) → List (String × Nat)
  | [] => []
  | p :: rest => insertByClicksDesc p (sortByClicksDesc rest)

/-- The `GROUP BY click.referer ... WHERE referer IS NOT NULL` aggregation of
`getReferrerStats`: distinct non-null referers of the link's clicks, with
their counts. -/
def refererCounts (clicks : List Click) (urlId : String) :
    List (String × Nat) :=
  let rel := clicks.filter (fun c => c.urlId == urlId && c.referer.isSome)
  let refs := (rel.filterMap (·.referer)).dedup
  refs.map (fun r => (r, (rel.filter (fun c => c.referer == some r)).length))

/-- The fresh (cache-miss) computation of
`AnalyticsService.getReferrerStats`: group the link's clicks with a non-null
referer, order by count descending, `LIMIT 20`, and map
`item.referer || 'Direct'` (JS falsiness: only the empty string ever maps to
`"Direct"` here, nulls were already filtered out by the query). -/
def getReferrerStats (clicks : List Click) (urlId : String) :
    List (String × Nat) :=
  ((sortByClicksDesc (refererCounts clicks urlId)).take 20).map
    (fun p => (if p.1 = "" then "Direct" else p.1, p.2))

/-- The winning group of a `GROUP BY key ... WHERE key IS NOT NULL ORDER BY
count DESC LIMIT 1` query followed by `getRawOne`: `none` exactly when no row
has the key set (the raw result is then `undefined`). -/
def topByCount (key : Click → Option String) (clicks : List Click) :
    Option String :=
  let vals := clicks.filterMap key
  let counted := vals.dedup.map (fun v => (v, (vals.filter (· == v)).length))
  (sortByClicksDesc counted).map (·.1) |>.head?

/-- Everything the analytics overview fallback can throw.  `jsTypeError` is
the `TypeError` JavaScript raises when a property is read off `undefined`. -/
inductive AnalyticsError where
  | notFound
  | unauthorized
  | jsTypeError
  deriving Repr, DecidableEq

/-- The `AnalyticsOverviewDto` the fallback builds. -/
structure OverviewDto where
  totalClicks : Nat
  uniqueVisitors : Nat
  topCountry : String
  topDevice : String
  topBrowser : String
  averageClicksPerDayCenti : Nat
  lastClickAt : Option Nat
  createdAt : Nat
  deriving Repr, DecidableEq

/-- The requesting user as the controller hands it in (`user.id`,
`user.role`; `UserRole.ADMIN` is the string `"admin"`). -/
structure UserCtx where
  id : String
  role : String
  deriving Repr, DecidableEq

/-- JS `Math.round(x * 100) / 100` over `x = totalClicks / days`, kept as
hundredths: `round(100 * total / days)` with round-half-up, as naturals. -/
def avgClicksPerDayCenti (total days : Nat) : Nat :=
  (200 * total + days) / (2 * days)

/-- The fallback of `AnalyticsService.getAnalyticsOverview` (what runs on an
analytics-cache miss): find the url, authorize, then the aggregate queries.
`COUNT(*)` and `COUNT(DISTINCT ip)` always produce a row, but the three
`GROUP BY ... LIMIT 1 / getRawOne` results are `undefined` when the link has
no matching clicks, and the result object then reads `.click_country` (resp.
`.click_deviceType`, `.click_browser`) off `undefined` - a `TypeError`.
`daySinceCreation` is `max 1 (floor (elapsed ms / day))`. -/
def getAnalyticsOverviewFresh (urls : List Url) (clicks : List Click)
    (code : String) (user : UserCtx) (now : Nat) :
    Except AnalyticsError OverviewDto :=
  match findByShortCode urls code with
  | none => .error .notFound
  | some url =>
    if url.userId ≠ some user.id ∧ user.role ≠ "admin" then .error .unauthorized
    else
      let mine := clicks.filter (fun c => c.urlId == url.id)
      let totalClicks := mine.length
      let uniqueVisitors := (mine.map (·.ipAddress)).dedup.length
      match topByCount (·.country) mine, topByCount (·.deviceType) mine,
          topByCount (·.browser) mine with
      | none, _, _ => .error .jsTypeError
      | _, none, _ => .error .jsTypeError
      | _, _, none => .error .jsTypeError
      | some tc, some td, some tb =>
        let lastClickAt := (mine.map (·.createdAt)).max?
        let daySinceCreation := max 1 ((now - url.createdAt) / 86400000)
        .ok
          { totalClicks := totalClicks
            uniqueVisitors := uniqueVisitors
            topCountry := if tc = "" then "Unknown" else tc
            topDevice := if td = "" then "Unknown" else td
            topBrowser := if tb = "" then "Unknown" else tb
            averageClicksPerDayCenti := avgClicksPerDayCenti totalClicks daySinceCreation
            lastClickAt := lastClickAt
            createdAt := url.createdAt }

/-! ### C1: fixed evaluation order of the access checks -/

/-- A live, active link that is both expired (at time 2000) and over its
quota. -/
def urlExpiredOverQuota : Url :=
  { id := "id-1", originalUrl := "https://example.com", shortCode := "abc123"
    customAlias := none, title := none, userId := none, clickCount := 5
    expiresAt := some 1000, isActive := true, password := none, maxClicks := 3
    createdAt := 0, deletedAt := none }

/-- C1: for every resolved link record and optional supplied password, the
check sequence of `getOriginalUrl` evaluates exactly the ordered policy of
the spec (soft-deleted, inactive, expired, over-quota, password required,
password mismatch, else the destination); in particular a live, active link
that is both expired and over-quota reports `Expired`, never
`QuotaExceeded`. -/
theorem C1_access_policy_fixed_order :
    (∀ (now : Nat) (url : Url) (pw : Option String),
      accessChecks now url pw = authorizeSpecContract now url pw) ∧
    (∀ (now : Nat) (url : Url) (pw : Option String) (e : Nat),
      url.deletedAt = none → url.isActive = true →
      url.expiresAt = some e → e < now →
      0 < url.maxClicks → url.maxClicks ≤ url.clickCount →
      accessChecks now url pw = .error .expired) := by
  constructor
  · intro now url pw
    obtain ⟨id, ou, sc, ca, ti, ui, cc, ea, ia, pwd, mc, cA, dA⟩ := url
    simp only [accessChecks, authorizeSpecContract]
    cases dA <;> cases ia <;> cases ea <;> cases pwd <;> cases pw <;>
      simp only [Option.isSome_none, Option.isSome_some, Bool.not_true, Bool.not_false,
        Bool.false_eq_true, Bool.true_eq_false, not_true, not_false_iff,
        if_true, if_false, ite_true, ite_false, gt_iff_lt, decide_eq_true_eq,
        bne_iff_ne, ne_eq, Bool.and_eq_true, reduceCtorEq, not_false_eq_true,
        Option.some.injEq, or_self, and_false, and_true, false_and, true_and, false_or] <;>
      split_ifs <;>
      first
        | rfl
        | omega
        | simp_all
  · intro now url pw e hd ha he hlt hmc hcc
    unfold accessChecks
    rw [if_neg (by simp [hd]), if_neg (by simp [ha]), if_pos (by simp [he]; omega)]

/-- Witness for C1: a concrete expired-and-over-quota link is denied as
`Expired`, not `QuotaExceeded`. -/
theorem C1_access_policy_fixed_order_witness :
    accessChecks 2000 urlExpiredOverQuota none = .error .expired :=
  C1_access_policy_fixed_order.2 2000 urlExpiredOverQuota none 1000
    rfl rfl rfl (by decide) (by decide) (by decide)

/-! ### C7: cache-backend failure degrades to the store path -/

/-- C7: when the cache backend fails on the get (and possibly the set), the
resolve falls through to the Link Store and yields exactly the no-cache
result; when it fails only on the set of a cache miss, likewise, and the
backend is left unchanged.  A cache-backend failure never becomes a failure
of the redirect. -/
theorem C7_cache_failure_falls_through :
    (∀ (store : List Url) (b : CacheBackend) (now : Nat) (code : String)
        (pw : Option String),
      b.getFails = true →
      (getOriginalUrl store b now code pw).1 = getOriginalUrlNoCache store now code pw) ∧
    (∀ (store : List Url) (b : CacheBackend) (now : Nat) (code : String)
        (pw : Option String),
      b.getFails = true → b.setFails = true →
      getOriginalUrl store b now code pw = (getOriginalUrlNoCache store now code pw, b)) ∧
    (∀ (store : List Url) (b : CacheBackend) (now : Nat) (code : String)
        (pw : Option String),
      b.setFails = true → lookupAssoc b.entries (urlLookupKey code) = none →
      getOriginalUrl store b now code pw = (getOriginalUrlNoCache store now code pw, b)) := by
  refine ⟨?_, ?_, ?_⟩
  · intro store b now code pw hget
    simp only [getOriginalUrl, getOriginalUrlNoCache, cacheServiceGet, backendGet, hget,
      if_true]
    cases findByShortCode store code <;> rfl
  · intro store b now code pw hget hset
    simp only [getOriginalUrl, getOriginalUrlNoCache, cacheServiceGet, cacheServiceSet,
      backendGet, backendSet, hget, hset, if_true]
    cases findByShortCode store code <;> rfl
  · intro store b now code pw hset hmiss
    cases hg : b.getFails <;>
      simp only [getOriginalUrl, getOriginalUrlNoCache, cacheServiceGet, cacheServiceSet,
        backendGet, backendSet, hg, hset, hmiss, if_true, if_false, Bool.false_eq_true,
        ite_true, ite_false] <;>
      cases findByShortCode store code <;> rfl

/-- A plain live link used by the redirect-path witnesses. -/
def demoUrl : Url :=
  { id := "id-2", originalUrl := "https://example.com", shortCode := "ok1234"
    customAlias := none, title := none, userId := none, clickCount := 0
    expiresAt := none, isActive := true, password := none, maxClicks := 0
    createdAt := 0, deletedAt := none }

/-- A cache backend that is down for both reads and writes. -/
def downBackend : CacheBackend := { entries := [], getFails := true, setFails := true }

/-- Witness for C7: with the backend down, resolving a stored link still
succeeds with its destination and touches nothing. -/
theorem C7_cache_failure_falls_through_witness :
    getOriginalUrl [demoUrl] downBackend 500 "ok1234" none
      = (.ok "https://example.com", downBackend) := by
  rw [C7_cache_failure_falls_through.2.1 [demoUrl] downBackend 500 "ok1234" none rfl rfl]
  rfl

/-! ### C3: a click event is enqueued only after the policy succeeds -/

/-- C3: the redirect handler enqueues a click event only when the resolve and
the access checks succeeded and returned a destination (and then exactly one,
with the 302); an unknown short code or a denial enqueues nothing. -/
theorem C3_click_enqueued_only_on_success :
    ∀ (store : List Url) (b : CacheBackend) (now : Nat) (code : String)
      (pw : Option String) (req : ReqInfo),
      ((redirectToOriginal store b now code pw req).2.1 ≠ [] →
        ∃ dest, (getOriginalUrl store b now code pw).1 = .ok dest ∧
          (redirectToOriginal store b now code pw req).1.status = 302 ∧
          (redirectToOriginal store b now code pw req).1.location = some dest) ∧
      (findByShortCode store code = none →
        (redirectToOriginal store b now code pw req).2.1 = []) ∧
      (∀ e, (getOriginalUrl store b now code pw).1 = .error e →
        (redirectToOriginal store b now code pw req).2.1 = []) := by
  intro store b now code pw req
  cases hf : findByShortCode store code with
  | none => refine ⟨?_, ?_, ?_⟩ <;> simp [redirectToOriginal, hf]
  | some url =>
    rcases hg : getOriginalUrl store b now code pw with ⟨res, b2⟩
    cases res with
    | error e => refine ⟨?_, ?_, ?_⟩ <;> simp [redirectToOriginal, hf, hg]
    | ok dest =>
      refine ⟨fun _ => ⟨dest, by simp [hg], ?_, ?_⟩,
        fun h => Option.noConfusion h,
        fun e he => ?_⟩
      · simp [redirectToOriginal, hf, hg]
      · simp [redirectToOriginal, hf, hg]
      · exact absurd he (by simp)

/-- Witness for C3: a denied (expired, over-quota) link produces no click
event and a 400 body. -/
theorem C3_click_enqueued_only_on_success_witness :
    (redirectToOriginal [urlExpiredOverQuota] { entries := [], getFails := false, setFails := false }
        2000 "abc123" none { ip := "1.2.3.4", userAgent := none, referer := none }).2.1 = [] :=
  (C3_click_enqueued_only_on_success [urlExpiredOverQuota]
      { entries := [], getFails := false, setFails := false } 2000 "abc123" none
      { ip := "1.2.3.4", userAgent := none, referer := none }).2.2
    .expired (by rfl)

/-! ### C2: lookup-cache invalidation on the click-ingestion path -/

/-- A live link with a quota of 1 click, also sitting in the lookup cache
with its pre-click counter. -/
def staleUrl : Url :=
  { id := "id-3", originalUrl := "https://example.com", shortCode := "abc1"
    customAlias := none, title := none, userId := none, clickCount := 0
    expiresAt := none, isActive := true, password := none, maxClicks := 1
    createdAt := 0, deletedAt := none }

/-- A healthy (non-failing) cache backend holding the lookup payload of
`staleUrl`. -/
def cacheWithStaleUrl : CacheBackend :=
  { entries := [(urlLookupKey "abc1", staleUrl)], getFails := false, setFails := false }

/-- System state just before the click-ingestion worker processes a click
for `staleUrl`. -/
def stateBeforeClick : AppState :=
  { urls := [staleUrl], clicks := [], lookupCache := cacheWithStaleUrl
    analyticsCache :=
      [(analyticsTimelineKey "abc1" "day" 30, "cached-timeline"),
       (analyticsOverviewKey "abc1", "cached-overview")] }

/-- The click event, user-agent parse and geo lookup the worker processes. -/
def demoClickEvent : ClickEventDto :=
  { urlId := "id-3", ipAddress := "8.8.8.8", userAgent := "UA", referer := "" }

/-- Parsed user agent handed to `processClickEvent`. -/
def demoUA : UAData :=
  { browser := some "Chrome", browserVersion := some "120", os := some "Windows"
    osVersion := some "10", deviceType := some "desktop" }

/-- Geo lookup handed to `processClickEvent`. -/
def demoGeo : GeoData :=
  { country := some "US", city := some "Mountain View"
    timezone := some "America/Los_Angeles" }

/-- C2 fails on the code: `AnalyticsService.processClickEvent` increments the
click counter but deletes only analytics keys, so the url-lookup cache entry
survives the mutation.  With quota 1 and the counter now at 1, a subsequent
resolve served from the cache still succeeds with the pre-mutation payload,
while the durable store alone would deny with `QuotaExceeded` - the stale
redirect the spec calls a correctness bug. -/
theorem C2_click_ingestion_leaves_stale_lookup_entry :
    (processClickEvent stateBeforeClick demoClickEvent demoUA demoGeo 1000).urls
        = [{ staleUrl with clickCount := 1 }] ∧
    lookupAssoc
        (processClickEvent stateBeforeClick demoClickEvent demoUA demoGeo 1000).lookupCache.entries
        (urlLookupKey "abc1") = some staleUrl ∧
    (getOriginalUrl
        (processClickEvent stateBeforeClick demoClickEvent demoUA demoGeo 1000).urls
        (processClickEvent stateBeforeClick demoClickEvent demoUA demoGeo 1000).lookupCache
        1500 "abc1" none).1 = .ok "https://example.com" ∧
    getOriginalUrlNoCache
        (processClickEvent stateBeforeClick demoClickEvent demoUA demoGeo 1000).urls
        1500 "abc1" none = .error .quotaExceeded :=
  ⟨rfl, rfl, rfl, rfl⟩

/-! ### C8: analytics-cache invalidation after a processed click -/

/-- Keys cleared by `invalidateAnalyticsCache`: lookups of any of the four
enumerated keys find nothing afterwards. -/
theorem lookupAssoc_invalidateAnalyticsCache_none
    (c : List (String × String)) (sc k : String)
    (hk : k = analyticsOverviewKey sc ∨ k = analyticsLocationsKey sc ∨
      k = analyticsDevicesKey sc ∨ k = analyticsReferrersKey sc) :
    lookupAssoc (invalidateAnalyticsCache c sc) k = none := by
  induction c with
  | nil => rfl
  | cons kv rest ih =>
    unfold invalidateAnalyticsCache at *
    by_cases hp : (kv.1 == analyticsOverviewKey sc
        || kv.1 == analyticsLocationsKey sc
        || kv.1 == analyticsDevicesKey sc
        || kv.1 == analyticsReferrersKey sc)
    · simpa [List.filter, hp] using ih
    · have hne : (kv.1 == k) = false := by
        rcases hk with h | h | h | h <;> subst h <;>
          simp_all [beq_iff_eq]
      simp only [List.filter_cons]
      rw [if_pos (by simp_all)]
      simpa [lookupAssoc, List.find?, hne] using ih

/-- C8 amended: after `processClickEvent` saves the click and increments the
counter, the overview, locations, devices and referrers cache keys of the
link's short code are all deleted (but not the timeline keys - see the
counterexample). -/
theorem C8_amended_analytics_invalidation :
    ∀ (s : AppState) (ev : ClickEventDto) (ua : UAData) (geo : GeoData)
      (now : Nat) (url : Url),
      findById (incrementUrls s.urls ev.urlId) ev.urlId = some url →
      (processClickEvent s ev ua geo now).clicks.length = s.clicks.length + 1 ∧
      (processClickEvent s ev ua geo now).urls = incrementUrls s.urls ev.urlId ∧
      (processClickEvent s ev ua geo now).analyticsCache
        = invalidateAnalyticsCache s.analyticsCache url.shortCode ∧
      (∀ k, (k = analyticsOverviewKey url.shortCode ∨
          k = analyticsLocationsKey url.shortCode ∨
          k = analyticsDevicesKey url.shortCode ∨
          k = analyticsReferrersKey url.shortCode) →
        lookupAssoc (processClickEvent s ev ua geo now).analyticsCache k = none) := by
  intro s ev ua geo now url hfind
  refine ⟨by simp [processClickEvent], by simp [processClickEvent], ?_, ?_⟩
  · simp [processClickEvent, hfind]
  · intro k hk
    have : (processClickEvent s ev ua geo now).analyticsCache
        = invalidateAnalyticsCache s.analyticsCache url.shortCode := by
      simp [processClickEvent, hfind]
    rw [this]
    exact lookupAssoc_invalidateAnalyticsCache_none s.analyticsCache url.shortCode k hk

/-- Witness for the amended C8 at the concrete pre-click state: the cached
overview entry for `abc1` is gone after the click is processed. -/
theorem C8_amended_analytics_invalidation_witness :
    lookupAssoc
      (processClickEvent stateBeforeClick demoClickEvent demoUA demoGeo 1000).analyticsCache
      (analyticsOverviewKey "abc1") = none :=
  ((C8_amended_analytics_invalidation stateBeforeClick demoClickEvent demoUA demoGeo 1000
      { staleUrl with clickCount := 1 } rfl).2.2.2 (analyticsOverviewKey "abc1")
    (Or.inl rfl))

/-- C8 as claimed is false: the timeline cache key of the very same short
code survives `processClickEvent` (only the four enumerated key families are
deleted; `analytics:timeline:...` keys are not among them). -/
theorem C8_counterexample_timeline_key_survives :
    lookupAssoc
      (processClickEvent stateBeforeClick demoClickEvent demoUA demoGeo 1000).analyticsCache
      (analyticsTimelineKey "abc1" "day" 30) = some "cached-timeline" :=
  rfl

/-! ### C4: the analytics overview on a link with zero clicks -/

/-- C4 fails on the code: for an existing, authorized link with no persisted
clicks, the three `GROUP BY ... getRawOne` results are `undefined` and the
result-object construction reads a property off `undefined`, so the overview
fallback raises a `TypeError` instead of returning zeroed fields. -/
theorem C4_overview_zero_clicks_raises :
    ∀ (urls : List Url) (clicks : List Click) (code : String) (user : UserCtx)
      (now : Nat) (url : Url),
      findByShortCode urls code = some url →
      (url.userId = some user.id ∨ user.role = "admin") →
      clicks.filter (fun c => c.urlId == url.id) = [] →
      getAnalyticsOverviewFresh urls clicks code user now = .error .jsTypeError := by
  intro urls clicks code user now url hfind hauth hclicks
  simp only [getAnalyticsOverviewFresh, hfind]
  rw [if_neg (by rintro ⟨ha, hb⟩; rcases hauth with h1 | h1; exacts [ha h1, hb h1])]
  simp only [hclicks]
  rfl

/-- Witness for C4: a stored link with an empty click ledger makes the
overview fallback throw. -/
theorem C4_overview_zero_clicks_raises_witness :
    getAnalyticsOverviewFresh [demoUrl] [] "ok1234" { id := "u1", role := "admin" } 0
      = .error .jsTypeError :=
  C4_overview_zero_clicks_raises [demoUrl] [] "ok1234" { id := "u1", role := "admin" } 0
    demoUrl rfl (Or.inr rfl) rfl

/-! ### C5: referrer statistics -/

/-- Membership through a descending insertion. -/
theorem mem_insertByClicksDesc {p q : String × Nat} {l : List (String × Nat)} :
    q ∈ insertByClicksDesc p l ↔ q = p ∨ q ∈ l := by
  induction l with
  | nil => simp [insertByClicksDesc]
  | cons r rest ih =>
    unfold insertByClicksDesc
    by_cases h : p.2 ≤ r.2 <;> simp [h, ih] <;> tauto

/-- Descending insertion preserves descending order. -/
theorem pairwise_insertByClicksDesc {p : String × Nat} {l : List (String × Nat)}
    (hl : l.Pairwise (fun a b => b.2 ≤ a.2)) :
    (insertByClicksDesc p l).Pairwise (fun a b => b.2 ≤ a.2) := by
  induction l with
  | nil => simp [insertByClicksDesc]
  | cons q rest ih =>
    rcases List.pairwise_cons.mp hl with ⟨hq, hrest⟩
    unfold insertByClicksDesc
    by_cases h : p.2 ≤ q.2
    · rw [if_pos h]
      refine List.pairwise_cons.mpr ⟨?_, ih hrest⟩
      intro x hx
      rcases mem_insertByClicksDesc.mp hx with rfl | hx'
      · exact h
      · exact hq x hx'
    · rw [if_neg h]
      refine List.pairwise_cons.mpr ⟨?_, hl⟩
      intro x hx
      rcases List.mem_cons.mp hx with rfl | hx'
      · omega
      · exact le_trans (hq x hx') (by omega)

/-- The `ORDER BY clicks DESC` model really sorts descending. -/
theorem pairwise_sortByClicksDesc (l : List (String × Nat)) :
    (sortByClicksDesc l).Pairwise (fun a b => b.2 ≤ a.2) := by
  induction l with
  | nil => simp [sortByClicksDesc]
  | cons p rest ih => exact pairwise_insertByClicksDesc ih

/-- C5 amended: `getReferrerStats` returns at most 20 entries in descending
click order, and clicks with a null referer contribute nothing at all to the
result (the query filters `referer IS NOT NULL`, so they are not reported
under "Direct" - see the counterexample). -/
theorem C5_amended_referrer_stats :
    ∀ (clicks : List Click) (urlId : String),
      (getReferrerStats clicks urlId).length ≤ 20 ∧
      (getReferrerStats clicks urlId).Pairwise (fun a b => b.2 ≤ a.2) ∧
      getReferrerStats (clicks.filter (fun c => c.referer.isSome)) urlId
        = getReferrerStats clicks urlId := by
  intro clicks urlId
  refine ⟨?_, ?_, ?_⟩
  · simp only [getReferrerStats, List.length_map]
    exact List.length_take_le 20 _
  · simp only [getReferrerStats]
    rw [List.pairwise_map]
    exact List.Pairwise.sublist (List.take_sublist 20 _)
      (pairwise_sortByClicksDesc _)
  · unfold getReferrerStats refererCounts
    rw [List.filter_filter]
    simp only [Bool.and_assoc, Bool.and_self]

/-- A click whose stored referer is null (a "direct" click). -/
def directClick : Click :=
  { urlId := "id-3", ipAddress := "9.9.9.9", userAgent := none, referer := none
    browser := none, browserVersion := none, os := none, osVersion := none
    deviceType := none, country := none, city := none, timezone := none
    createdAt := 10 }

/-- Witness for the amended C5 at a concrete input: a single null-referer
click yields an unchanged (empty) result after dropping null referers. -/
theorem C5_amended_referrer_stats_witness :
    (getReferrerStats [directClick] "id-3").length ≤ 20 ∧
    getReferrerStats ([directClick].filter (fun c => c.referer.isSome)) "id-3"
      = getReferrerStats [directClick] "id-3" :=
  ⟨(C5_amended_referrer_stats [directClick] "id-3").1,
   (C5_amended_referrer_stats [directClick] "id-3").2.2⟩

/-- C5 as claimed is false: a link whose only click has a null referer gets
an empty referrer list - the click is not reported under `"Direct"`. -/
theorem C5_counterexample_null_referer_dropped :
    getReferrerStats [directClick] "id-3" = [] ∧
    ("Direct", 1) ∉ getReferrerStats [directClick] "id-3" :=
  ⟨rfl, by simp [getReferrerStats, refererCounts, directClick, sortByClicksDesc]⟩

/-! ### C6 / C10: bulk creation -/

/-- Each bulk item adds at most one row: a successful loop returns at most
`acc + dtos` rows. -/
theorem bulkLoop_length_le :
    ∀ (dtos : List CreateUrlDto) (store : List Url) (gen : Nat → String)
      (now : Nat) (uid0 : Option String) (acc : List Url) (gi uid : Nat)
      (rs : List Url),
      bulkLoop store gen now uid0 dtos acc gi uid = .ok rs →
      rs.length ≤ acc.length + dtos.length := by
  intro dtos
  induction dtos with
  | nil =>
    intro store gen now uid0 acc gi uid rs h
    simp only [bulkLoop] at h
    cases h
    simp
  | cons dto rest ih =>
    intro store gen now uid0 acc gi uid rs h
    simp only [bulkLoop] at h
    repeat' split at h
    all_goals
      first
        | simp at h
        | (have hlen := ih _ _ _ _ _ _ _ _ h; simp_all; omega)

/-- A bulk batch holding an item with an invalid destination URL always
aborts with an exception (by the time the loop reaches the offending item,
`validateUrl` throws; an earlier generator exhaustion also aborts). -/
theorem bulkLoop_invalid_aborts :
    ∀ (dtos : List CreateUrlDto) (store : List Url) (gen : Nat → String)
      (now : Nat) (uid0 : Option String) (acc : List Url) (gi uid : Nat),
      (∃ d ∈ dtos, ∃ m, validateUrl d.originalUrl = .error m) →
      ∃ e, bulkLoop store gen now uid0 dtos acc gi uid = .error e := by
  intro dtos
  induction dtos with
  | nil =>
    intro store gen now uid0 acc gi uid h
    simp at h
  | cons dto rest ih =>
    intro store gen now uid0 acc gi uid h
    rcases h with ⟨d, hd, m, hm⟩
    rcases List.mem_cons.mp hd with rfl | hdrest
    · exact ⟨.badRequest m, by simp only [bulkLoop, hm]⟩
    · cases hv : validateUrl dto.originalUrl with
      | error m' => exact ⟨.badRequest m', by simp only [bulkLoop, hv]⟩
      | ok u =>
        have hrest : ∃ d ∈ rest, ∃ m, validateUrl d.originalUrl = .error m :=
          ⟨d, hdrest, m, hm⟩
        simp only [bulkLoop, hv]
        repeat' split
        all_goals first
          | exact ⟨_, rfl⟩
          | exact ih _ _ _ _ _ _ _ hrest

/-- Bulk scenario item with a fresh alias. -/
def dtoA : CreateUrlDto :=
  { originalUrl := "https://a.example", customAlias := some "alias-a"
    password := none, expiresAt := none, maxClicks := none, title := none }

/-- Bulk scenario item whose alias `ok1234` is already taken by `demoUrl`. -/
def dtoDup : CreateUrlDto :=
  { originalUrl := "https://b.example", customAlias := some "ok1234"
    password := none, expiresAt := none, maxClicks := none, title := none }

/-- Bulk scenario item with another fresh alias. -/
def dtoC : CreateUrlDto :=
  { originalUrl := "https://c.example", customAlias := some "alias-c"
    password := none, expiresAt := none, maxClicks := none, title := none }

/-- Bulk item whose destination URL does not parse. -/
def dtoBad : CreateUrlDto :=
  { originalUrl := "not a url", customAlias := some "alias-z"
    password := none, expiresAt := none, maxClicks := none, title := none }

/-- A well-formed bulk item following `dtoBad` in the C10 witness batch. -/
def dtoD : CreateUrlDto :=
  { originalUrl := "https://d.example", customAlias := some "alias-d"
    password := none, expiresAt := none, maxClicks := none, title := none }

/-- Bulk scenario item with a fresh alias but a past expiry date (50,
against batch time 100). -/
def dtoPast : CreateUrlDto :=
  { originalUrl := "https://p.example", customAlias := some "alias-p"
    password := none, expiresAt := some 50, maxClicks := none, title := none }

/-- An item whose custom alias is already taken (among the rows visible to
the transaction) is `continue`d over: the loop proceeds on the remaining
items with nothing saved for it and nothing aborted. -/
theorem bulkLoop_skip_taken_alias
    (store : List Url) (gen : Nat → String) (now : Nat) (uid0 : Option String)
    (dto : CreateUrlDto) (rest : List CreateUrlDto) (acc : List Url)
    (gi uidc : Nat) (a : String)
    (hv : validateUrl dto.originalUrl = .ok ())
    (ha : dto.customAlias = some a)
    (hdup : (findByShortCode (store ++ acc) a).isSome = true) :
    bulkLoop store gen now uid0 (dto :: rest) acc gi uidc
      = bulkLoop store gen now uid0 rest acc gi uidc := by
  simp [bulkLoop, hv, ha, hdup]

/-- An item with a free custom alias but a past expiry date is `continue`d
over after the alias check: the loop proceeds on the remaining items with
nothing saved for it and nothing aborted. -/
theorem bulkLoop_skip_past_expiry_alias
    (store : List Url) (gen : Nat → String) (now : Nat) (uid0 : Option String)
    (dto : CreateUrlDto) (rest : List CreateUrlDto) (acc : List Url)
    (gi uidc : Nat) (a : String) (e : Nat)
    (hv : validateUrl dto.originalUrl = .ok ())
    (ha : dto.customAlias = some a)
    (hdup : (findByShortCode (store ++ acc) a).isSome = false)
    (he : dto.expiresAt = some e) (hlt : e < now) :
    bulkLoop store gen now uid0 (dto :: rest) acc gi uidc
      = bulkLoop store gen now uid0 rest acc gi uidc := by
  simp [bulkLoop, hv, ha, hdup, he, hlt]

/-- A past-expiry item without a custom alias is likewise `continue`d over;
it has already consumed candidates from the shared nanoid stream (the
generator runs before the expiry check), so the loop resumes at the
generator's new cursor. -/
theorem bulkLoop_skip_past_expiry_generated
    (store : List Url) (gen : Nat → String) (now : Nat) (uid0 : Option String)
    (dto : CreateUrlDto) (rest : List CreateUrlDto) (acc : List Url)
    (gi uidc : Nat) (c : String) (gi' : Nat) (e : Nat)
    (hv : validateUrl dto.originalUrl = .ok ())
    (ha : dto.customAlias = none)
    (hg : generateUniqueShortCode store gen gi = .ok (c, gi'))
    (he : dto.expiresAt = some e) (hlt : e < now) :
    bulkLoop store gen now uid0 (dto :: rest) acc gi uidc
      = bulkLoop store gen now uid0 rest acc gi' uidc := by
  simp [bulkLoop, hv, ha, hg, he, hlt, Except.map]

/-- C6: a taken custom alias or a past expiry date makes the loop skip that
item individually - the run on the batch equals the run on the batch without
it, at the same transaction state, so the remaining items are persisted as
usual and nothing aborts; when the call succeeds, the persisted rows are
exactly the returned results appended to the store, at most one per input
item, and the controller reports `created = |results|`,
`skipped = |items| - created`.  In the concrete 3-item scenarios (one taken
alias, resp. one past expiry), the response is `created = 2, skipped = 1`
and exactly 2 rows are added. -/
theorem C6_bulk_partial_success :
    (∀ (store : List Url) (gen : Nat → String) (now : Nat) (uid : Option String)
        (dtos : List CreateUrlDto) (store' rs : List Url),
      bulkCreateShortUrls store gen now uid dtos = .ok (store', rs) →
      store' = store ++ rs ∧ rs.length ≤ dtos.length ∧
      bulkControllerResponse store gen now uid dtos
        = .ok { created := rs.length, skipped := dtos.length - rs.length }) ∧
    (∀ (store : List Url) (gen : Nat → String) (now : Nat) (uid : Option String)
        (dto : CreateUrlDto) (rest : List CreateUrlDto) (acc : List Url)
        (gi uidc : Nat) (a : String),
      validateUrl dto.originalUrl = .ok () →
      dto.customAlias = some a →
      (findByShortCode (store ++ acc) a).isSome = true →
      bulkLoop store gen now uid (dto :: rest) acc gi uidc
        = bulkLoop store gen now uid rest acc gi uidc) ∧
    (∀ (store : List Url) (gen : Nat → String) (now : Nat) (uid : Option String)
        (dto : CreateUrlDto) (rest : List CreateUrlDto) (acc : List Url)
        (gi uidc : Nat) (a : String) (e : Nat),
      validateUrl dto.originalUrl = .ok () →
      dto.customAlias = some a →
      (findByShortCode (store ++ acc) a).isSome = false →
      dto.expiresAt = some e → e < now →
      bulkLoop store gen now uid (dto :: rest) acc gi uidc
        = bulkLoop store gen now uid rest acc gi uidc) ∧
    (∀ (store : List Url) (gen : Nat → String) (now : Nat) (uid : Option String)
        (dto : CreateUrlDto) (rest : List CreateUrlDto) (acc : List Url)
        (gi uidc : Nat) (c : String) (gi' : Nat) (e : Nat),
      validateUrl dto.originalUrl = .ok () →
      dto.customAlias = none →
      generateUniqueShortCode store gen gi = .ok (c, gi') →
      dto.expiresAt = some e → e < now →
      bulkLoop store gen now uid (dto :: rest) acc gi uidc
        = bulkLoop store gen now uid rest acc gi' uidc) ∧
    (bulkControllerResponse [demoUrl] (fun _ => "unused") 100 none [dtoA, dtoDup, dtoC]
        = .ok { created := 2, skipped := 1 } ∧
      (bulkPostStore [demoUrl] (fun _ => "unused") 100 none [dtoA, dtoDup, dtoC]).length
        = 3) ∧
    (bulkControllerResponse [demoUrl] (fun _ => "unused") 100 none [dtoA, dtoPast, dtoC]
        = .ok { created := 2, skipped := 1 } ∧
      (bulkPostStore [demoUrl] (fun _ => "unused") 100 none [dtoA, dtoPast, dtoC]).length
        = 3) := by
  refine ⟨?_, ?_, ?_, ?_, ⟨rfl, rfl⟩, ⟨rfl, rfl⟩⟩
  · intro store gen now uid dtos store' rs h
    unfold bulkCreateShortUrls at h
    cases hb : bulkLoop store gen now uid dtos [] 0 0 with
    | error e => rw [hb] at h; cases h
    | ok rs2 =>
      rw [hb] at h
      cases h
      refine ⟨rfl, ?_, ?_⟩
      · simpa using bulkLoop_length_le dtos store gen now uid [] 0 0 _ hb
      · unfold bulkControllerResponse bulkCreateShortUrls
        rw [hb]
        rfl
  · exact fun store gen now uid dto rest acc gi uidc a hv ha hdup =>
      bulkLoop_skip_taken_alias store gen now uid dto rest acc gi uidc a hv ha hdup
  · exact fun store gen now uid dto rest acc gi uidc a e hv ha hdup he hlt =>
      bulkLoop_skip_past_expiry_alias store gen now uid dto rest acc gi uidc a e
        hv ha hdup he hlt
  · exact fun store gen now uid dto rest acc gi uidc c gi' e hv ha hg he hlt =>
      bulkLoop_skip_past_expiry_generated store gen now uid dto rest acc gi uidc c gi' e
        hv ha hg he hlt

/-- Witness for C6: the universal part applied to a concrete 1-item
successful run, and the past-expiry skip law applied to a concrete batch
headed by the expired item. -/
theorem C6_bulk_partial_success_witness :
    bulkControllerResponse [demoUrl] (fun _ => "unused") 100 none [dtoA]
      = .ok { created := 1, skipped := 0 } ∧
    bulkLoop [demoUrl] (fun _ => "unused") 100 none [dtoPast, dtoA] [] 0 0
      = bulkLoop [demoUrl] (fun _ => "unused") 100 none [dtoA] [] 0 0 ∧
    bulkLoop [demoUrl] (fun _ => "unused") 100 none [dtoDup, dtoA] [] 0 0
      = bulkLoop [demoUrl] (fun _ => "unused") 100 none [dtoA] [] 0 0 :=
  ⟨(C6_bulk_partial_success.1 [demoUrl] (fun _ => "unused") 100 none [dtoA]
      ([demoUrl] ++ [mkBulkUrl dtoA none "alias-a" none 100 0])
      [mkBulkUrl dtoA none "alias-a" none 100 0] rfl).2.2,
   C6_bulk_partial_success.2.2.1 [demoUrl] (fun _ => "unused") 100 none
     dtoPast [dtoA] [] 0 0 "alias-p" 50 rfl rfl rfl rfl (by decide),
   C6_bulk_partial_success.2.1 [demoUrl] (fun _ => "unused") 100 none
     dtoDup [dtoA] [] 0 0 "ok1234" rfl rfl rfl⟩

/-- C10: an invalid destination URL anywhere in a bulk batch makes the whole
call throw and leaves the store unchanged (transaction rollback); when the
offending item is first, the thrown error is precisely the
`BadRequestException` of `validateUrl`. -/
theorem C10_bulk_validation_error_rolls_back :
    (∀ (store : List Url) (gen : Nat → String) (now : Nat) (uid : Option String)
        (dtos : List CreateUrlDto),
      (∃ d ∈ dtos, ∃ m, validateUrl d.originalUrl = .error m) →
      (∃ e, bulkCreateShortUrls store gen now uid dtos = .error e) ∧
      bulkPostStore store gen now uid dtos = store) ∧
    (∀ (store : List Url) (gen : Nat → String) (now : Nat) (uid : Option String)
        (d : CreateUrlDto) (rest : List CreateUrlDto) (m : String),
      validateUrl d.originalUrl = .error m →
      bulkCreateShortUrls store gen now uid (d :: rest) = .error (.badRequest m)) := by
  constructor
  · intro store gen now uid dtos h
    obtain ⟨e, he⟩ := bulkLoop_invalid_aborts dtos store gen now uid [] 0 0 h
    refine ⟨⟨e, ?_⟩, ?_⟩
    · unfold bulkCreateShortUrls
      rw [he]
      rfl
    · unfold bulkPostStore bulkCreateShortUrls
      rw [he]
      rfl
  · intro store gen now uid d rest m hm
    unfold bulkCreateShortUrls
    simp only [bulkLoop, hm]
    rfl

/-- Witness for C10: a malformed URL in a 2-item batch aborts the call with
its `BadRequestException` and the store keeps only its original row. -/
theorem C10_bulk_validation_error_rolls_back_witness :
    bulkCreateShortUrls [demoUrl] (fun _ => "unused") 100 none [dtoBad, dtoD]
      = .error (.badRequest "Invalid URL format") ∧
    bulkPostStore [demoUrl] (fun _ => "unused") 100 none [dtoBad, dtoD] = [demoUrl] :=
  ⟨C10_bulk_validation_error_rolls_back.2 [demoUrl] (fun _ => "unused") 100 none
      dtoBad [dtoD] "Invalid URL format" rfl,
   (C10_bulk_validation_error_rolls_back.1 [demoUrl] (fun _ => "unused") 100 none
      [dtoBad, dtoD] ⟨dtoBad, List.mem_cons_self _ _, "Invalid URL format", rfl⟩).2⟩

/-! ### C9: the short-code generator -/

/-- A successful generation returns a code free in the store (among
non-deleted rows) that is one of the attempted candidates. -/
theorem genUniqueFrom_ok :
    ∀ (fuel : Nat) (store : List Url) (gen : Nat → String) (i : Nat)
      (c : String) (i' : Nat),
      genUniqueFrom store gen i fuel = .ok (c, i') →
      findByShortCode store c = none ∧ ∃ j, j < fuel ∧ c = gen (i + j) := by
  intro fuel
  induction fuel with
  | zero =>
    intro store gen i c i' h
    simp [genUniqueFrom] at h
  | succ fuel ih =>
    intro store gen i c i' h
    simp only [genUniqueFrom] at h
    by_cases ha : (findByShortCode store (gen i)).isSome
    · rw [if_pos ha] at h
      obtain ⟨h1, j, hj, hc⟩ := ih store gen (i + 1) c i' h
      exact ⟨h1, j + 1, by omega, by rw [hc]; congr 1; omega⟩
    · rw [if_neg ha] at h
      cases h
      refine ⟨?_, 0, by omega, by simp⟩
      cases hf : findByShortCode store (gen i)
      · rfl
      · exact absurd (by simp [hf]) ha

/-- When every candidate collides, the generator exhausts its retries and
throws. -/
theorem genUniqueFrom_exhausted :
    ∀ (fuel : Nat) (store : List Url) (gen : Nat → String) (i : Nat),
      (∀ j, j < fuel → (findByShortCode store (gen (i + j))).isSome) →
      genUniqueFrom store gen i fuel = .error .genRetriesExhausted := by
  intro fuel
  induction fuel with
  | zero => intro store gen i _; rfl
  | succ fuel ih =>
    intro store gen i hall
    simp only [genUniqueFrom]
    rw [if_pos (by simpa using hall 0 (by omega))]
    apply ih
    intro j hj
    have := hall (j + 1) (by omega)
    simpa [Nat.add_assoc, Nat.add_comm 1 j] using this

/-- C9 amended: the generator always draws codes of length 6 - the
`SHORT_CODE_LENGTH` configuration is read (default 6) but the nanoid size is
the literal 6 - over the alphabet that excludes `0`, `O`, `1`, `l` and `I`;
each candidate is checked for uniqueness against the store, a successful
draw is a free code, and five collisions in a row surface an error. -/
theorem C9_amended_generator :
    (∀ (cfg : String → Option Nat) (f : Nat → Fin 57),
      (nanoidGen (mkUrlService cfg).nanoidSize f).length = 6) ∧
    (∀ (n : Nat) (f : Nat → Fin 57) (c : Char),
      c ∈ (nanoidGen n f).toList →
      c ∈ urlAlphabet.toList ∧ c ∉ (['0', 'O', '1', 'l', 'I'] : List Char)) ∧
    (∀ (store : List Url) (gen : Nat → String) (i : Nat) (c : String) (i' : Nat),
      generateUniqueShortCode store gen i = .ok (c, i') →
      findByShortCode store c = none ∧ ∃ j, j < 5 ∧ c = gen (i + j)) ∧
    (∀ (store : List Url) (gen : Nat → String) (i : Nat),
      (∀ j, j < 5 → (findByShortCode store (gen (i + j))).isSome) →
      generateUniqueShortCode store gen i = .error .genRetriesExhausted) := by
  refine ⟨?_, ?_, ?_, ?_⟩
  · intro cfg f
    show ((List.range 6).map (fun j => urlAlphabet.toList.getD (f j) 'a')).length = 6
    rw [List.length_map, List.length_range]
  · intro n f c hc
    replace hc : c ∈ (List.range n).map (fun j => urlAlphabet.toList.getD (f j) 'a') := hc
    have hmem : c ∈ urlAlphabet.toList := by
      rcases List.mem_map.mp hc with ⟨j, _, hj⟩
      have hlt : ((f j : Nat)) < urlAlphabet.toList.length := by
        have h57 : urlAlphabet.toList.length = 57 := by decide
        rw [h57]
        exact (f j).isLt
      rw [← hj, List.getD_eq_getElem urlAlphabet.toList 'a' hlt]
      apply List.getElem_mem
    refine ⟨hmem, ?_⟩
    have hall : ∀ x ∈ urlAlphabet.toList,
        x ∉ (['0', 'O', '1', 'l', 'I'] : List Char) := by decide
    exact hall c hmem
  · exact fun store gen i c i' h => genUniqueFrom_ok 5 store gen i c i' h
  · exact fun store gen i h => genUniqueFrom_exhausted 5 store gen i h

/-- The `j`-th candidate code of the generator stub used by the C9 witness. -/
def candCode (j : Nat) : String := "c" ++ String.mk (List.replicate j 'x')

/-- A store whose only rows hold the five candidate codes the generator
would draw. -/
def collidingStore : List Url :=
  (List.range 5).map (fun j => { demoUrl with id := candCode j, shortCode := candCode j })

/-- Witness for the amended C9: a fresh draw at a concrete store succeeds
with a free candidate, and a fully colliding store exhausts the retries. -/
theorem C9_amended_generator_witness :
    findByShortCode [demoUrl] "c" = none ∧
    generateUniqueShortCode collidingStore candCode 0 = .error .genRetriesExhausted :=
  ⟨(C9_amended_generator.2.2.1 [demoUrl] candCode 0 "c" 1 rfl).1,
   C9_amended_generator.2.2.2 collidingStore candCode 0
     (by intro j hj; interval_cases j <;> decide)⟩

/-- The configuration stub of the C9 counterexample: `SHORT_CODE_LENGTH` is
set to 8. -/
def cfgLen8 : String → Option Nat :=
  fun k => if k = "SHORT_CODE_LENGTH" then some 8 else none

/-- C9 as claimed is false in its "configurable" part: with
`SHORT_CODE_LENGTH = 8` the constructor records 8, yet the generator is
built with the literal size 6 and every generated code has length 6, not
8. -/
theorem C9_counterexample_config_ignored :
    (mkUrlService cfgLen8).shortCodeLength = 8 ∧
    (mkUrlService cfgLen8).nanoidSize = 6 ∧
    (nanoidGen (mkUrlService cfgLen8).nanoidSize (fun _ => ⟨0, by decide⟩)).length = 6 ∧
    (nanoidGen (mkUrlService cfgLen8).nanoidSize (fun _ => ⟨0, by decide⟩)).length
      ≠ (mkUrlService cfgLen8).shortCodeLength :=
  ⟨rfl, rfl, rfl, by decide⟩

end UrlShortener
